import Mathlib

/-!
Verification development for the ComVEX BiFPN module
(`src/comvex/efficientdet/bifpn.py`).

The Python code is shallowly embedded: tensors are abstracted to their
shape metadata (`FeatureShape`) where a claim is about shape flow, and to
per-position rational/real values where a claim is about the fusion
numerics.  Fallible Python operations (list indexing, `assert`,
`raise ValueError`, `torch.stack` shape checks, channel mismatches of
convolution/normalization layers, calling a module with the wrong arity)
are modelled with `Except PyErr`.  Floating point arithmetic is idealised
as exact arithmetic over `ℚ`/`ℝ`; the float literal `1e-4` is rendered as
`1/10000`.

Notes on modelling scope:
* `SeperateConvXd` (imported from `comvex.utils`, not part of the sources
  under verification) is modelled from the spec as a depthwise-then-
  pointwise mixing convolution: it preserves the spatial shape, requires
  its configured input channel count, and produces its configured output
  channel count.
* In `BiFPNLayer.forward` the source iterates
  `reversed(enumerate(self.intermediate_nodes))`.  Under plain CPython
  `reversed` rejects an `enumerate` iterator with a `TypeError`; the loop
  is modelled under its evident intent (and TorchScript-style semantics),
  namely reverse iteration over the indexed node list, so that the
  remaining index arithmetic of the sweep can be analysed.
* `BiFPNNode.__init__` passes nine positional arguments to
  `BiFPNResizeXd.__init__`'s eight positional parameters (source lines
  100–110), and `BiFPN.__init__` passes seven positional arguments to
  `BiFPNLayer.__init__`'s two positional parameters (source lines
  262–271); under plain CPython both calls raise `TypeError` before the
  callee's body runs.  Two construction models are therefore given:
  `nodeInit`/`layerInit`/`bifpnInit` model the constructor *bodies* under
  the idealization that these calls succeed — used where a claim concerns
  the bodies' logic, the real program failing those claims even earlier —
  while `nodeInitPy`/`layerInitPy`/`bifpnInitPy` model the plain-CPython
  calling semantics faithfully.
* Python `AssertionError` (failed `assert`) and `ValueError` (unknown
  `norm_mode`) are both rendered as `PyErr.configError`, the spec's
  `ConfigurationError` taxonomy class; `IndexError` and `TypeError` are
  kept distinct.
-/

/-- Errors a Python-level evaluation of the module can raise. -/
inductive PyErr where
  | configError
  | indexError
  | typeError
  | shapeError
  | channelError
  deriving DecidableEq, Repr

/-- Shape metadata of a batched feature map: channel count and spatial shape
(the batch dimension plays no role in any claim). -/
structure FeatureShape where
  channel : ℕ
  spatial : List ℕ
  deriving DecidableEq, Repr

/-- Python list indexing `l[i]` including negative-index semantics:
a negative index counts from the end, and any index out of range raises
`IndexError`. -/
def pyGetI {α : Type} (l : List α) (i : ℤ) : Except PyErr α :=
  let j : ℤ := if i < 0 then i + l.length else i
  if j < 0 then .error .indexError
  else
    match l[j.toNat]? with
    | some a => .ok a
    | none => .error .indexError

/-- Python `str.endswith`, implemented structurally over the character
list so that closed instances reduce definitionally. -/
def strEndsWith (s post : String) : Bool :=
  post.data.isSuffixOf s.data

/-- `exceptMapM f l` runs `f` over `l` in order, stopping at the first
raised error — the semantics of a Python list comprehension whose body may
raise. -/
def exceptMapM {α β : Type} (f : α → Except PyErr β) : List α → Except PyErr (List β)
  | [] => .ok []
  | a :: as =>
    match f a with
    | .error e => .error e
    | .ok b =>
      match exceptMapM f as with
      | .error e => .error e
      | .ok bs => .ok (b :: bs)

/-- `exceptFoldl f s l` folds `f` over `l` from the left, stopping at the
first raised error — the semantics of a Python `for` loop whose body may
raise. -/
def exceptFoldl {α σ : Type} (f : σ → α → Except PyErr σ) : σ → List α → Except PyErr σ
  | s, [] => .ok s
  | s, a :: as =>
    match f s a with
    | .error e => .error e
    | .ok s2 => exceptFoldl f s2 as

/-! ### `bifpn_fast_norm` and `bifpn_softmax` (source lines 16–28)

A stack of `k` aligned maps is modelled by its `k` values at one fixed
spatial/channel/batch position (both reducers act pointwise in those
coordinates); `weights` is the length-`k` weight vector, broadcast along
the stack dimension. -/

/-- `bifpn_fast_norm` (source lines 16–21), translated literally:
`weights = F.relu(weights); norm = weights.sum(dim, keepdim=True);`
`return x*weights / (norm + 1e-4)`.  Note that the returned value is the
elementwise-scaled *stack* (a list of `k` values): the source contains no
sum over the stack dimension. -/
def bifpn_fast_norm (x weights : List ℚ) : List ℚ :=
  let w := weights.map (fun a => max a 0)
  let norm := w.sum
  (x.zip w).map (fun p => p.1 * p.2 / (norm + 1 / 10000))

/-- Modelled from the spec: the reference clipped-linear ("fast norm")
reduction — rectify the weights, normalize by their sum plus `1e-4`, and
return the weighted *sum* of the `k` inputs, a single value. -/
def fastNormRef (x weights : List ℚ) : ℚ :=
  let w := weights.map (fun a => max a 0)
  ((x.zip w).map (fun p => p.1 * p.2)).sum / (w.sum + 1 / 10000)

/-- The softmax weight normalization `F.softmax(weights, dim)` at index
`i` (source line 26). -/
noncomputable def softmaxW {k : ℕ} (w : Fin k → ℝ) (i : Fin k) : ℝ :=
  Real.exp (w i) / ∑ j, Real.exp (w j)

/-- `bifpn_softmax` (source lines 24–28), translated literally:
`weights = F.softmax(weights, dim); return (x*weights).sum(dim=0)` —
the softmax-weighted sum over the stack dimension. -/
noncomputable def bifpn_softmax {k : ℕ} (x w : Fin k → ℝ) : ℝ :=
  ∑ i, x i * softmaxW w i

/-! ### `BiFPNResizeXd` (source lines 31–77) -/

/-- Which spatial-resize operator `BiFPNResizeXd.__init__` installs. -/
inductive ResizePath where
  | pool
  | upsample
  deriving DecidableEq, Repr

/-- The shape checks of `BiFPNResizeXd.__init__` (source lines 50–65) and
the chosen resize branch.  Translated literally: the rank assert, then the
direction assert `(in_shape[0] > out_shape[0]) == (in_shape[1] > out_shape[1])`
(which indexes dimensions 0 and 1 only, in Python's evaluation order), then
the branch on `in_shape[0] > out_shape[0]`. -/
def resizeInit (inShape outShape : List ℕ) : Except PyErr ResizePath :=
  if inShape.length = outShape.length then
    match pyGetI inShape 0 with
    | .error e => .error e
    | .ok i0 =>
      match pyGetI outShape 0 with
      | .error e => .error e
      | .ok o0 =>
        match pyGetI inShape 1 with
        | .error e => .error e
        | .ok i1 =>
          match pyGetI outShape 1 with
          | .error e => .error e
          | .ok o1 =>
            if (i0 > o0) ↔ (i1 > o1) then
              if i0 > o0 then .ok .pool else .ok .upsample
            else .error .configError
  else .error .configError

/-- Configuration recorded by `BiFPNResizeXd.__init__` (source lines
58–68).  `normChannel` is the feature count the batch-norm layer is built
with: the source passes `in_channel` (line 68). -/
structure ResizeCfg where
  inChannel : ℕ
  outChannel : ℕ
  inShape : List ℕ
  outShape : List ℕ
  path : ResizePath
  useBatchNorm : Bool
  normChannel : ℕ
  deriving DecidableEq, Repr

/-- `BiFPNResizeXd.__init__` (source lines 37–68): run the shape checks,
pick the resize branch, record the 1×1 projection `in_channel → out_channel`
and, when enabled, a batch norm built with `in_channel` features. -/
def resizeXdInit (inChannel outChannel : ℕ) (inShape outShape : List ℕ)
    (useBatchNorm : Bool) : Except PyErr ResizeCfg :=
  match resizeInit inShape outShape with
  | .error e => .error e
  | .ok p => .ok ⟨inChannel, outChannel, inShape, outShape, p, useBatchNorm, inChannel⟩

/-- `BiFPNResizeXd.forward` (source lines 70–77) at shape level:
spatially resize to `out_shape` (both `AdaptiveMaxPool` and `Upsample`
produce exactly the target shape from any input of the same rank), then
the 1×1 projection (requires the input's channel count to equal
`in_channel`), then, when enabled, batch norm (requires the input's
channel count to equal the feature count the layer was built with). -/
def resizeXdForward (cfg : ResizeCfg) (x : FeatureShape) : Except PyErr FeatureShape :=
  if x.spatial.length = cfg.outShape.length then
    let x1 : FeatureShape := ⟨x.channel, cfg.outShape⟩
    if x1.channel = cfg.inChannel then
      let x2 : FeatureShape := ⟨cfg.outChannel, x1.spatial⟩
      if cfg.useBatchNorm then
        if x2.channel = cfg.normChannel then .ok x2 else .error .channelError
      else .ok x2
    else .error .channelError
  else .error .shapeError

/-! ### `BiFPNNode` (source lines 80–160) -/

/-- Which reducer `BiFPNNode.__init__` binds to `self.fuse_features`. -/
inductive FuseMode where
  | fastNorm
  | softmaxMode
  deriving DecidableEq, Repr

/-- Configuration of a `BiFPNNode` (source lines 84–128): input arity
(2 for `BiFPNIntermediateNode`/`BiFPNOutputEndPoint`, 3 for
`BiFPNOutputNode`), the resize sub-module, the channel pair of the
`SeperateConvXd` mixing convolution, and the selected reducer. -/
structure NodeCfg where
  numInputs : ℕ
  inChannel : ℕ
  outChannel : ℕ
  resize : ResizeCfg
  fuse : FuseMode
  deriving DecidableEq, Repr

/-- `BiFPNNode.__init__` (source lines 84–128) in source order: construct
the `BiFPNResizeXd` (whose asserts can fail), then the mixing convolution
(no checks), then dispatch on `norm_mode` — a name ending in `"fast_norm"`
selects `bifpn_fast_norm`, else one ending in `"softmax"` selects
`bifpn_softmax`, anything else raises `ValueError` — then the weight
parameter (no checks modelled).  This models the constructor *body* under
the idealization that the nine-positional `BiFPNResizeXd` call succeeds;
under plain CPython that call raises `TypeError` before the body's checks
run — see `nodeInitPy`. -/
def nodeInit (numInputs inChannel outChannel : ℕ) (inShape outShape : List ℕ)
    (useBatchNorm : Bool) (normMode : String) : Except PyErr NodeCfg :=
  match resizeXdInit inChannel outChannel inShape outShape useBatchNorm with
  | .error e => .error e
  | .ok rz =>
    if strEndsWith normMode "fast_norm" then
      .ok ⟨numInputs, inChannel, outChannel, rz, .fastNorm⟩
    else if strEndsWith normMode "softmax" then
      .ok ⟨numInputs, inChannel, outChannel, rz, .softmaxMode⟩
    else .error .configError

/-- Two-input node forward (`BiFPNIntermediateNode.forward`, source lines
139–143) at shape level: resize `x_diff`, `torch.stack` (requires equal
shapes), fuse, then the mixing convolution.  The convolution is modelled
from the spec (`SeperateConvXd` is external): it requires its configured
input channel count and produces its configured output channel count on
the same spatial shape.  The stack dimension that `bifpn_fast_norm` fails
to reduce (claim C2) is abstracted away at shape level. -/
def nodeForward2 (cfg : NodeCfg) (x xdiff : FeatureShape) : Except PyErr FeatureShape :=
  match resizeXdForward cfg.resize xdiff with
  | .error e => .error e
  | .ok xd2 =>
    if x = xd2 then
      if x.channel = cfg.inChannel then .ok ⟨cfg.outChannel, x.spatial⟩
      else .error .channelError
    else .error .shapeError

/-- Three-input node forward (`BiFPNOutputNode.forward`, source lines
156–160) at shape level: resize `x_diff`, `torch.stack` over the three
maps (requires equal shapes), fuse, then the mixing convolution, modelled
as in `nodeForward2`. -/
def nodeForward3 (cfg : NodeCfg) (x xhidden xdiff : FeatureShape) :
    Except PyErr FeatureShape :=
  match resizeXdForward cfg.resize xdiff with
  | .error e => .error e
  | .ok xd2 =>
    if x = xhidden ∧ x = xd2 then
      if x.channel = cfg.inChannel then .ok ⟨cfg.outChannel, x.spatial⟩
      else .error .channelError
    else .error .shapeError

/-! ### `BiFPNLayer` (source lines 163–237) -/

/-- The endpoint test `idx == 0 or idx == self.num_nodes`, appearing
verbatim both in node construction (source line 205) and in forward
dispatch (source line 229). -/
def isOutputEndpoint (numNodes idx : ℕ) : Bool :=
  idx == 0 || idx == numNodes

/-- Configuration of a `BiFPNLayer`: `num_nodes` (source line 182) and the
constructed intermediate and output node lists. -/
structure LayerCfg where
  numNodes : ℕ
  interNodes : List NodeCfg
  outNodes : List NodeCfg
  deriving DecidableEq, Repr

/-- `BiFPNLayer.__init__` (source lines 170–213): assert equal lengths of
`shapes_in_stages`/`channels_in_stages`; build the intermediate nodes for
`idx in range(1, num_nodes - 1)` wiring level `idx+1` into level `idx`;
build the output nodes for `idx in range(num_nodes)`, a two-input endpoint
node wired from the neighbour level when `isOutputEndpoint` holds and a
three-input node wired from level `idx-1` otherwise.  All list accesses go
through Python indexing and can raise `IndexError`. -/
def layerInit (shapes : List (List ℕ)) (channels : List ℕ)
    (useBatchNorm : Bool) (normMode : String) : Except PyErr LayerCfg :=
  if shapes.length = channels.length then
    let numNodes := shapes.length
    match exceptMapM (fun idx =>
      match pyGetI channels ((idx : ℤ) + 1) with
      | .error e => .error e
      | .ok cIn =>
        match pyGetI channels (idx : ℤ) with
        | .error e => .error e
        | .ok cOut =>
          match pyGetI shapes ((idx : ℤ) + 1) with
          | .error e => .error e
          | .ok sIn =>
            match pyGetI shapes (idx : ℤ) with
            | .error e => .error e
            | .ok sOut => nodeInit 2 cIn cOut sIn sOut useBatchNorm normMode)
      (List.range' 1 (numNodes - 2)) with
    | .error e => .error e
    | .ok inter =>
      match exceptMapM (fun idx =>
        if isOutputEndpoint numNodes idx then
          match pyGetI channels (if idx = 0 then (idx : ℤ) + 1 else (idx : ℤ) - 1) with
          | .error e => .error e
          | .ok cIn =>
            match pyGetI channels (idx : ℤ) with
            | .error e => .error e
            | .ok cOut =>
              match pyGetI shapes (if idx = 0 then (idx : ℤ) + 1 else (idx : ℤ) - 1) with
              | .error e => .error e
              | .ok sIn =>
                match pyGetI shapes (idx : ℤ) with
                | .error e => .error e
                | .ok sOut => nodeInit 2 cIn cOut sIn sOut useBatchNorm normMode
        else
          match pyGetI channels ((idx : ℤ) - 1) with
          | .error e => .error e
          | .ok cIn =>
            match pyGetI channels (idx : ℤ) with
            | .error e => .error e
            | .ok cOut =>
              match pyGetI shapes ((idx : ℤ) - 1) with
              | .error e => .error e
              | .ok sIn =>
                match pyGetI shapes (idx : ℤ) with
                | .error e => .error e
                | .ok sOut => nodeInit 3 cIn cOut sIn sOut useBatchNorm normMode)
        (List.range numNodes) with
      | .error e => .error e
      | .ok outs => .ok ⟨numNodes, inter, outs⟩
  else .error .configError

/-- An output node as called by the forward sweep: a two-argument or a
three-argument callable (Python raises `TypeError` when a module is
called with the wrong arity). -/
inductive OutNodeF (α : Type) where
  | two (f : α → α → Except PyErr α)
  | three (f : α → α → α → Except PyErr α)

/-- The bottom-up hidden-state retrieval
`hidden_feature_list[-(idx + 1)]` (source line 232). -/
def hiddenLookup {α : Type} (hidden : List α) (idx : ℕ) : Except PyErr α :=
  pyGetI hidden (-((idx : ℤ) + 1))

/-- The top-down sweep of `BiFPNLayer.forward` (source lines 220–224):
iterate the indexed intermediate nodes in reverse; at enumerate-index
`rev_idx`, read `feature_list[rev_idx + 1]`, apply the node to it and the
running `x_diff`, and append the result to `hidden_feature_list`.
Returns `(hidden_feature_list, x_diff)`. -/
def topDownG {α : Type} (interNodes : List (α → α → Except PyErr α))
    (features : List α) (xdiff0 : α) : Except PyErr (List α × α) :=
  exceptFoldl (fun acc p =>
    match pyGetI features ((p.1 : ℤ) + 1) with
    | .error e => .error e
    | .ok x =>
      match p.2 x acc.2 with
      | .error e => .error e
      | .ok xd => .ok (acc.1 ++ [xd], xd))
    ([], xdiff0) interNodes.enum.reverse

/-- The bottom-up sweep of `BiFPNLayer.forward` (source lines 226–235):
for each output node at index `idx`, read `feature_list[idx]`; when
`isOutputEndpoint` holds call the node on `(x, x_diff)`, otherwise fetch
`hidden_feature_list[-(idx + 1)]` and call the node on
`(x, x_hidden, x_diff)`; each result becomes the new `x_diff` and is
appended to the output list.  Returns `(out_feature_list, x_diff)`. -/
def bottomUpG {α : Type} (numNodes : ℕ) (outNodes : List (OutNodeF α))
    (hidden features : List α) (xdiff0 : α) : Except PyErr (List α × α) :=
  exceptFoldl (fun acc p =>
    match pyGetI features (p.1 : ℤ) with
    | .error e => .error e
    | .ok x =>
      match (if isOutputEndpoint numNodes p.1 then
               match p.2 with
               | OutNodeF.two f => f x acc.2
               | OutNodeF.three _ => .error PyErr.typeError
             else
               match hiddenLookup hidden p.1 with
               | .error e => .error e
               | .ok xh =>
                 match p.2 with
                 | OutNodeF.three f => f x xh acc.2
                 | OutNodeF.two _ => .error PyErr.typeError) with
      | .error e => .error e
      | .ok xd => .ok (acc.1 ++ [xd], xd))
    ([], xdiff0) outNodes.enum

/-- `BiFPNLayer.forward` (source lines 215–237), generic in the node
semantics: initialise `x_diff = feature_list[-1]`, run the top-down sweep
over the intermediate nodes, then the bottom-up sweep over the output
nodes, and return the output feature list. -/
def layerForwardG {α : Type} (numNodes : ℕ)
    (interNodes : List (α → α → Except PyErr α)) (outNodes : List (OutNodeF α))
    (features : List α) : Except PyErr (List α) :=
  match pyGetI features (-1) with
  | .error e => .error e
  | .ok xdiff0 =>
    match topDownG interNodes features xdiff0 with
    | .error e => .error e
    | .ok td =>
      match bottomUpG numNodes outNodes td.1 features td.2 with
      | .error e => .error e
      | .ok bu => .ok bu.1

/-- `BiFPNLayer.forward` instantiated with the shape-level node semantics
of the constructed layer configuration. -/
def layerForward (cfg : LayerCfg) (features : List FeatureShape) :
    Except PyErr (List FeatureShape) :=
  layerForwardG cfg.numNodes
    (cfg.interNodes.map (fun n x d => nodeForward2 n x d))
    (cfg.outNodes.map (fun n =>
      if n.numInputs = 2 then OutNodeF.two (fun x d => nodeForward2 n x d)
      else OutNodeF.three (fun x h d => nodeForward3 n x h d)))
    features

/-! ### `BiFPN` (source lines 240–279) -/

/-- `BiFPN.__init__` (source lines 245–273): build `num_layers` identically
configured `BiFPNLayer`s. -/
def bifpnInit (numLayers : ℕ) (shapes : List (List ℕ)) (channels : List ℕ)
    (useBatchNorm : Bool) (normMode : String) : Except PyErr (List LayerCfg) :=
  exceptMapM (fun _ => layerInit shapes channels useBatchNorm normMode)
    (List.range numLayers)

/-- `BiFPN.forward` (source lines 275–279): feed the pyramid through each
layer in order. -/
def bifpnForward (layers : List LayerCfg) (features : List FeatureShape) :
    Except PyErr (List FeatureShape) :=
  exceptFoldl (fun fs l => layerForward l fs) features layers

/-- Construction followed by a forward call of the whole `BiFPN`
(`PyramidFuser`), as a pure function of the configuration and the input
pyramid's shape metadata. -/
def bifpnRun (numLayers : ℕ) (shapes : List (List ℕ)) (channels : List ℕ)
    (useBatchNorm : Bool) (normMode : String) (features : List FeatureShape) :
    Except PyErr (List FeatureShape) :=
  match bifpnInit numLayers shapes channels useBatchNorm normMode with
  | .error e => .error e
  | .ok ls => bifpnForward ls features

/-! ### Construction under plain-CPython calling semantics

`BiFPNNode.__init__` (source lines 100–110) invokes
`BiFPNResizeXd.__init__` with nine positional arguments — `in_channel`,
`out_channel`, `in_shape`, `out_shape`, `dimension`, `upsample_mode`,
`use_bias`, `use_batch_norm`, `possible_batch_norm_kwargs` — against a
signature with eight positional parameters plus `**kwargs` (which absorbs
only keywords), so CPython raises `TypeError` at the call site, before the
resize asserts or the `norm_mode` dispatch of the node body can run.
Likewise `BiFPN.__init__` (source lines 262–271) invokes
`BiFPNLayer.__init__` with seven positional arguments against two
positional parameters plus `**kwargs`.  The following definitions model
this behaviour faithfully. -/

/-- `BiFPNNode` construction under plain CPython: the nine-positional
`BiFPNResizeXd` call (source lines 100–110) raises `TypeError`
unconditionally, whatever the configuration, so none of the body's checks
(`nodeInit`) are reachable. -/
def nodeInitPy (_numInputs _inChannel _outChannel : ℕ)
    (_inShape _outShape : List ℕ) (_useBatchNorm : Bool) (_normMode : String) :
    Except PyErr NodeCfg :=
  .error .typeError

/-- `BiFPNLayer.__init__` under plain CPython (a direct, keyword-argument
construction of the layer): the length assert (source lines 178–180)
still runs, and the Python-indexed argument lookups of each
node-construction call run before the call itself — so `L = 1` raises
`IndexError` from `channels_in_stages[1]` (source line 200) — but every
node construction that is reached raises `TypeError`, via `nodeInitPy`. -/
def layerInitPy (shapes : List (List ℕ)) (channels : List ℕ)
    (useBatchNorm : Bool) (normMode : String) : Except PyErr LayerCfg :=
  if shapes.length = channels.length then
    let numNodes := shapes.length
    match exceptMapM (fun idx =>
      match pyGetI channels ((idx : ℤ) + 1) with
      | .error e => .error e
      | .ok cIn =>
        match pyGetI channels (idx : ℤ) with
        | .error e => .error e
        | .ok cOut =>
          match pyGetI shapes ((idx : ℤ) + 1) with
          | .error e => .error e
          | .ok sIn =>
            match pyGetI shapes (idx : ℤ) with
            | .error e => .error e
            | .ok sOut => nodeInitPy 2 cIn cOut sIn sOut useBatchNorm normMode)
      (List.range' 1 (numNodes - 2)) with
    | .error e => .error e
    | .ok inter =>
      match exceptMapM (fun idx =>
        if isOutputEndpoint numNodes idx then
          match pyGetI channels (if idx = 0 then (idx : ℤ) + 1 else (idx : ℤ) - 1) with
          | .error e => .error e
          | .ok cIn =>
            match pyGetI channels (idx : ℤ) with
            | .error e => .error e
            | .ok cOut =>
              match pyGetI shapes (if idx = 0 then (idx : ℤ) + 1 else (idx : ℤ) - 1) with
              | .error e => .error e
              | .ok sIn =>
                match pyGetI shapes (idx : ℤ) with
                | .error e => .error e
                | .ok sOut => nodeInitPy 2 cIn cOut sIn sOut useBatchNorm normMode
        else
          match pyGetI channels ((idx : ℤ) - 1) with
          | .error e => .error e
          | .ok cIn =>
            match pyGetI channels (idx : ℤ) with
            | .error e => .error e
            | .ok cOut =>
              match pyGetI shapes ((idx : ℤ) - 1) with
              | .error e => .error e
              | .ok sIn =>
                match pyGetI shapes (idx : ℤ) with
                | .error e => .error e
                | .ok sOut => nodeInitPy 3 cIn cOut sIn sOut useBatchNorm normMode)
        (List.range numNodes) with
      | .error e => .error e
      | .ok outs => .ok ⟨numNodes, inter, outs⟩
  else .error .configError

/-- `BiFPN.__init__` under plain CPython: each of the `num_layers`
`BiFPNLayer(...)` calls passes seven positional arguments to a
two-positional-parameter constructor (source lines 262–271) and raises
`TypeError` before even `BiFPNLayer.__init__`'s length assert runs. -/
def bifpnInitPy (numLayers : ℕ) (_shapes : List (List ℕ)) (_channels : List ℕ)
    (_useBatchNorm : Bool) (_normMode : String) : Except PyErr (List LayerCfg) :=
  exceptMapM (fun _ => (.error .typeError : Except PyErr LayerCfg))
    (List.range numLayers)

/-! ### Symbolic (trace-level) instantiation of the layer forward, used to
examine which hidden state each bottom-up node receives. -/

/-- Symbolic feature maps: an input pyramid level, or the application of a
two- or three-input fusion node at a given level. -/
inductive Trace where
  | input (i : ℕ)
  | node2 (lvl : ℕ) (x d : Trace)
  | node3 (lvl : ℕ) (x h d : Trace)
  deriving DecidableEq, Repr

/-- The intermediate nodes of an `L`-level layer as symbolic callables:
list position `j` holds the node of level `j + 1`, mirroring
`range(1, num_nodes - 1)` in construction (source line 194). -/
def interTraceNodes (L : ℕ) : List (Trace → Trace → Except PyErr Trace) :=
  (List.range' 1 (L - 2)).map (fun lvl x d => .ok (Trace.node2 lvl x d))

/-- The output nodes of an `L`-level layer as symbolic callables, with the
arity chosen by the construction-time endpoint test (source line 205). -/
def outTraceNodes (L : ℕ) : List (OutNodeF Trace) :=
  (List.range L).map (fun idx =>
    if isOutputEndpoint L idx then
      OutNodeF.two (fun x d => .ok (Trace.node2 idx x d))
    else
      OutNodeF.three (fun x h d => .ok (Trace.node3 idx x h d)))

/-- One symbolic `BiFPNLayer.forward` over the input pyramid
`[input 0, …, input (L-1)]`. -/
def layerTrace (L : ℕ) : Except PyErr (List Trace) :=
  layerForwardG L (interTraceNodes L) (outTraceNodes L)
    ((List.range L).map Trace.input)

/-! ### Theorems for claims C1, C3, C4, C8, C9 -/

/-- Claim C1: `BiFPN.forward` is claimed to return, for every valid
configuration, exactly `L` feature maps with the configured per-level
channels and shapes.  At the benign two-level configuration
`shapes=[(2,2),(1,1)]`, `channels=[7,7]`, `norm_mode="softmax"`,
`num_layers=1`, with an input pyramid of exactly the configured shapes,
the embedded forward instead raises `IndexError`: the deepest output node
is dispatched to the three-input branch, which indexes the empty
`hidden_feature_list` at `-(1+1)`. -/
theorem forward_output_contract_violated :
    bifpnRun 1 [[2, 2], [1, 1]] [7, 7] false "softmax"
      [⟨7, [2, 2]⟩, ⟨7, [1, 1]⟩] = .error .indexError := rfl

/-- Claim C3: the endpoint condition `idx == 0 or idx == self.num_nodes`
is claimed to select exactly levels `0` and `L-1`.  For `L = 3` the
constructed output nodes have input arities `[2, 3, 3]`: the deepest level
`2` receives a three-input node, because the test compares against
`num_nodes = L`, which no iterated index attains; only level `0` is
selected. -/
theorem endpoint_selection_only_level_zero :
    (layerInit [[4, 4], [2, 2], [1, 1]] [3, 3, 3] false "softmax").map
        (fun cfg => cfg.outNodes.map NodeCfg.numInputs) = .ok [2, 3, 3]
    ∧ isOutputEndpoint 3 0 = true
    ∧ isOutputEndpoint 3 2 = false
    ∧ isOutputEndpoint 3 3 = true :=
  ⟨rfl, rfl, rfl, rfl⟩

/-- Claim C4: the top-down sweep behaves as claimed — for `L = 4`, with
`diff` initialised to `input 3`, the level-2 node then the level-1 node
are applied, each result stored in order — but the bottom-up retrieval
`hidden_feature_list[-(idx + 1)]` does *not* return level `idx`'s hidden
state: at interior level `1` it returns the state stored for level `2`,
and at interior level `2` it raises `IndexError` (the list has length
`L - 2 = 2`), so the whole symbolic layer forward fails. -/
theorem bottom_up_hidden_off_by_one :
    topDownG (interTraceNodes 4) ((List.range 4).map Trace.input) (Trace.input 3)
      = .ok ([Trace.node2 2 (Trace.input 2) (Trace.input 3),
              Trace.node2 1 (Trace.input 1)
                (Trace.node2 2 (Trace.input 2) (Trace.input 3))],
             Trace.node2 1 (Trace.input 1)
               (Trace.node2 2 (Trace.input 2) (Trace.input 3)))
    ∧ hiddenLookup [Trace.node2 2 (Trace.input 2) (Trace.input 3),
                    Trace.node2 1 (Trace.input 1)
                      (Trace.node2 2 (Trace.input 2) (Trace.input 3))] 1
        = .ok (Trace.node2 2 (Trace.input 2) (Trace.input 3))
    ∧ Trace.node2 2 (Trace.input 2) (Trace.input 3)
        ≠ Trace.node2 1 (Trace.input 1)
            (Trace.node2 2 (Trace.input 2) (Trace.input 3))
    ∧ hiddenLookup [Trace.node2 2 (Trace.input 2) (Trace.input 3),
                    Trace.node2 1 (Trace.input 1)
                      (Trace.node2 2 (Trace.input 2) (Trace.input 3))] 2
        = .error .indexError
    ∧ layerTrace 4 = .error .indexError :=
  ⟨rfl, rfl, by decide, rfl, rfl⟩

/-- Claim C8: construction is claimed to fail with `ConfigurationError`
exactly when the configuration is invalid (mismatched stage-list lengths,
a node rank mismatch, an unrecognized `norm_mode`), with the `norm_mode`
suffix selecting the reducer.  Those checks exist verbatim in the
constructor bodies — matching the spec — but under plain CPython they are
dead code for nodes: `BiFPNNode.__init__` passes nine positional
arguments to `BiFPNResizeXd.__init__`'s eight positional parameters
(source lines 100–110), so a rank-mismatched node, a node with an
unrecognized `norm_mode`, and even a fully well-formed node all fail with
`TypeError` before any check or reducer dispatch runs; a well-formed
single-level layer fails with `IndexError` (the argument lookup
`channels_in_stages[1]`, source line 200, precedes the call); a fully
well-formed two-level layer fails with `TypeError` as well; only the
length-mismatch assert (source line 178) still yields the configuration
error; and the top-level `BiFPN.__init__` fails with `TypeError` for any
`num_layers ≥ 1` regardless of configuration (seven positional arguments
to `BiFPNLayer.__init__`'s two positional parameters, source lines
262–271). -/
theorem construction_fails_with_typeerror :
    nodeInitPy 2 1 1 [2] [2, 2] false "fast_norm" = .error .typeError
    ∧ nodeInitPy 2 1 1 [2, 2] [1, 1] false "unknown_mode" = .error .typeError
    ∧ nodeInitPy 2 1 1 [2, 2] [1, 1] false "fast_norm" = .error .typeError
    ∧ layerInitPy [[2, 2]] [5] false "fast_norm" = .error .indexError
    ∧ layerInitPy [[2, 2], [1, 1]] [7, 7] false "softmax" = .error .typeError
    ∧ layerInitPy [[2, 2], [1, 1]] [4] false "fast_norm" = .error .configError
    ∧ bifpnInitPy 1 [[2, 2], [1, 1]] [7, 7] false "softmax" = .error .typeError :=
  ⟨rfl, rfl, rfl, rfl, rfl, rfl, rfl⟩

/-- Claim C9: the embedded `BiFPN.forward` pipeline is a pure function of
the configuration and the input pyramid — it mutates no state — so two
runs on identical parameters and identical input yield identical results. -/
theorem bifpn_forward_deterministic (numLayers : ℕ) (shapes : List (List ℕ))
    (channels : List ℕ) (useBatchNorm : Bool) (normMode : String)
    (features : List FeatureShape) (r1 r2 : Except PyErr (List FeatureShape))
    (h1 : r1 = bifpnRun numLayers shapes channels useBatchNorm normMode features)
    (h2 : r2 = bifpnRun numLayers shapes channels useBatchNorm normMode features) :
    r1 = r2 :=
  h1.trans h2.symm

/-- Witness for C9 at the spec's end-to-end scenario configuration
(`num_layers = 2`, three levels `(64,64)/(32,32)/(16,16)` with channels
`64/128/256`). -/
theorem bifpn_forward_deterministic_witness :
    bifpnRun 2 [[64, 64], [32, 32], [16, 16]] [64, 128, 256] false "fast_norm"
      [⟨64, [64, 64]⟩, ⟨128, [32, 32]⟩, ⟨256, [16, 16]⟩]
    = bifpnRun 2 [[64, 64], [32, 32], [16, 16]] [64, 128, 256] false "fast_norm"
      [⟨64, [64, 64]⟩, ⟨128, [32, 32]⟩, ⟨256, [16, 16]⟩] :=
  bifpn_forward_deterministic 2 _ _ false "fast_norm" _ _ _ rfl rfl

/-! ### Theorems for claims C2, C5, C6, C7, C10 -/

/-- Claim C2: the clipped-linear ("fast norm") reduction is claimed to
return the weighted *sum* over the `k` inputs — a single map — so that two
constant maps of values 1.0 and 3.0 with equal weights yield a constant
map of value 2.0.  The code (source line 21) omits the sum over the stack
dimension: on that very input it returns the two-element scaled stack
`[10000/20001, 30000/20001]`, not a single value; summing the code's
result recovers exactly the reference value `40000/20001 ≈ 2.0`, which
isolates the missing `.sum(dim=0)` as the defect. -/
theorem fast_norm_missing_sum :
    bifpn_fast_norm [1, 3] [1, 1] = [10000 / 20001, 30000 / 20001]
    ∧ (bifpn_fast_norm [1, 3] [1, 1]).length = 2
    ∧ fastNormRef [1, 3] [1, 1] = 40000 / 20001
    ∧ (bifpn_fast_norm [1, 3] [1, 1]).sum = fastNormRef [1, 3] [1, 1]
    ∧ |fastNormRef [1, 3] [1, 1] - 2| < 1 / 1000 := by
  refine ⟨by norm_num [bifpn_fast_norm], rfl, by norm_num [fastNormRef], ?_, ?_⟩
  · norm_num [bifpn_fast_norm, fastNormRef]
  · norm_num [fastNormRef, abs_lt]

/-- Claim C5: `bifpn_softmax` equals the reference definition — softmax
normalization of the weights followed by the weighted sum over the `k`
inputs — and for a 2-input stack with weights `(t, -t)` the output
converges to the first input as `t → ∞` (softmax saturation). -/
theorem softmax_fuse_spec_and_saturation (a b : ℝ) :
    (∀ (k : ℕ) (x w : Fin k → ℝ), bifpn_softmax x w = ∑ i, softmaxW w i * x i)
    ∧ Filter.Tendsto (fun t : ℝ => bifpn_softmax ![a, b] ![t, -t])
        Filter.atTop (nhds a) := by
  constructor
  · intro k x w
    unfold bifpn_softmax
    exact Finset.sum_congr rfl (fun i _ => mul_comm _ _)
  · have key : ∀ t : ℝ,
        bifpn_softmax ![a, b] ![t, -t]
          = (a + b * Real.exp (-(2 * t))) / (1 + Real.exp (-(2 * t))) := by
      intro t
      have hS : (0 : ℝ) < Real.exp t + Real.exp (-t) := by positivity
      have hD : (0 : ℝ) < 1 + Real.exp (-(2 * t)) := by positivity
      have he : Real.exp t * Real.exp (-(2 * t)) = Real.exp (-t) := by
        rw [← Real.exp_add]; ring_nf
      simp only [bifpn_softmax, softmaxW, Fin.sum_univ_two,
        Matrix.cons_val_zero, Matrix.cons_val_one, Matrix.head_cons]
      rw [← mul_div_assoc, ← mul_div_assoc, div_add_div_same,
        div_eq_div_iff (ne_of_gt hS) (ne_of_gt hD)]
      linear_combination (a - b) * he
    have hg : Filter.Tendsto (fun t : ℝ => Real.exp (-(2 * t)))
        Filter.atTop (nhds 0) := by
      have h1 : Filter.Tendsto (fun t : ℝ => 2 * t) Filter.atTop Filter.atTop :=
        Filter.Tendsto.const_mul_atTop two_pos Filter.tendsto_id
      have h2 : Filter.Tendsto (fun t : ℝ => -(2 * t)) Filter.atTop Filter.atBot :=
        Filter.tendsto_neg_atTop_atBot.comp h1
      exact Real.tendsto_exp_atBot.comp h2
    have main : Filter.Tendsto
        (fun t : ℝ => (a + b * Real.exp (-(2 * t))) / (1 + Real.exp (-(2 * t))))
        Filter.atTop (nhds a) := by
      have hnum : Filter.Tendsto (fun t : ℝ => a + b * Real.exp (-(2 * t)))
          Filter.atTop (nhds (a + b * 0)) :=
        tendsto_const_nhds.add (tendsto_const_nhds.mul hg)
      have hden : Filter.Tendsto (fun t : ℝ => 1 + Real.exp (-(2 * t)))
          Filter.atTop (nhds (1 + 0)) :=
        tendsto_const_nhds.add hg
      have h4 := hnum.div hden (by norm_num)
      simpa using h4
    exact Filter.Tendsto.congr (fun t => (key t).symm) main

/-- Claim C6: the direction check is claimed to reject every
mixed-direction `in_shape`/`out_shape` pair of any spatial rank 1, 2 or 3
with `ConfigurationError`.  The assert (source line 55) compares only
dimensions 0 and 1: the rank-3 mixed pair `(8,8,4) → (4,4,8)` passes and
selects pooling, the rank-1 pair `(8,) → (4,)` raises `IndexError` instead
of selecting pooling, while the claim's rank-2 example `(8,8) → (4,16)`
does raise the configuration error, and consistent rank-2 pairs select the
claimed paths. -/
theorem resize_direction_check_partial :
    resizeInit [8, 8, 4] [4, 4, 8] = .ok .pool
    ∧ resizeInit [8] [4] = .error .indexError
    ∧ resizeInit [8, 8] [4, 16] = .error .configError
    ∧ resizeInit [8, 8] [4, 4] = .ok .pool
    ∧ resizeInit [4, 4] [8, 8] = .ok .upsample :=
  ⟨rfl, rfl, rfl, rfl, rfl⟩

/-- Claim C7: `BiFPNResizeXd.forward` is claimed to produce
`(out_channel, out_shape)` for every `in_channel`/`out_channel` pair, with
normalization (when enabled) applied after the projection.  The norm layer
is built with `in_channel` features (source line 68) but runs after the
projection to `out_channel` channels, so with `use_batch_norm=True` and
`in_channel=1 ≠ out_channel=2` the forward raises a channel mismatch; the
contract does hold without batch norm, or with batch norm when
`in_channel = out_channel`. -/
theorem resize_forward_norm_channel_bug :
    (resizeXdInit 1 2 [2, 2] [1, 1] true).bind
        (fun cfg => resizeXdForward cfg ⟨1, [2, 2]⟩) = .error .channelError
    ∧ (resizeXdInit 1 2 [2, 2] [1, 1] false).bind
        (fun cfg => resizeXdForward cfg ⟨1, [2, 2]⟩) = .ok ⟨2, [1, 1]⟩
    ∧ (resizeXdInit 2 2 [2, 2] [1, 1] true).bind
        (fun cfg => resizeXdForward cfg ⟨2, [2, 2]⟩) = .ok ⟨2, [1, 1]⟩ :=
  ⟨rfl, rfl, rfl⟩

/-- Claim C10: when `in_shape` equals `out_shape` (any rank at least 2,
so that the two compared dimensions exist), the direction assert passes —
both strict-greater comparisons are false on both sides — and the
upsampling branch is selected; there is no dedicated identity path. -/
theorem resize_equal_shape_upsample (a b : ℕ) (t : List ℕ) :
    resizeInit (a :: b :: t) (a :: b :: t) = .ok .upsample := by
  simp [resizeInit, pyGetI, lt_irrefl]

/-- Witness for C10 at the concrete equal pair `(4,4) → (4,4)`. -/
theorem resize_equal_shape_upsample_witness :
    resizeInit [4, 4] [4, 4] = .ok .upsample :=
  resize_equal_shape_upsample 4 4 []
